import Mathlib

/-!
Verification development for the pydf1 DF1 protocol client.

This file gives a shallow embedding, in Lean 4, of the parts of the
pydf1 code base that the checked properties talk about:

* `src/df1/models/receive_buffer.py` (the streaming receive buffer),
* `src/df1/commands/commands.py` (the PCCC command encoders),
* `src/df1/replies/reply_4f.py` (the 0x4F reply decoder),
* `src/df1/models/df1_base.py` (the transaction engine: the receiver
  path `_process_frame_buffer`, `send_command`, and the read helpers).

Python byte strings are embedded as `List Nat`, Python exceptions as an
explicit `Except PyErr` result, and the two stateful loops that interact
with time (the `_expect_message` poll and the generator in
`pop_left_frames`) are embedded as functions over an explicit script of
incoming replies and over a fuel parameter respectively.
-/

namespace Df1

/-- A wire octet.  The Python code works with `bytearray` values whose
elements are 0..255; we embed octets as `Nat` (the source never relies on
8-bit wraparound for buffer contents). -/
abbrev Byte := Nat

/-! ### Control symbols

Modelled from the spec: `tx_symbol.py` is not among the provided source
files; the spec fixes the control octets as DLE=0x10, STX=0x02, ETX=0x03,
ACK=0x06, NAK=0x15, ENQ=0x05. -/

def DLE : Byte := 0x10
def STX : Byte := 0x02
def ETX : Byte := 0x03
def ACK : Byte := 0x06
def NAK : Byte := 0x15
def ENQ : Byte := 0x05

def dle_stx_bytes : List Byte := [DLE, STX]
def dle_etx_bytes : List Byte := [DLE, ETX]
def dle_ack_bytes : List Byte := [DLE, ACK]
def dle_enq_bytes : List Byte := [DLE, ENQ]
def dle_nak_bytes : List Byte := [DLE, NAK]
def dle_dle_bytes : List Byte := [DLE, DLE]

/-- The Python exceptions that can escape the embedded code.
`notImplemented` carries the message string passed to
`NotImplementedError` in the source. -/
inductive PyErr where
  | typeError
  | valueError
  | overflowError
  | arithmeticError
  | indexError
  | attributeError
  | sendReceiveError
  | notImplemented (msg : String)
  deriving Repr, DecidableEq

instance exceptDecEq {ε α : Type} [DecidableEq ε] [DecidableEq α] :
    DecidableEq (Except ε α) := fun x y =>
  match x, y with
  | .ok a, .ok b =>
    if h : a = b then isTrue (by rw [h]) else isFalse (by simp [h])
  | .error e, .error f =>
    if h : e = f then isTrue (by rw [h]) else isFalse (by simp [h])
  | .ok _, .error _ => isFalse (by simp)
  | .error _, .ok _ => isFalse (by simp)

/-! ### ReceiveBuffer (`src/df1/models/receive_buffer.py`) -/

/-- Python `bytes.find(sub, start)`: the least index `i ≥ start` such
that `sub` occurs in `buf` at `i`, or `-1` when there is none. -/
def bytesFind (buf sub : List Byte) (start : Nat) : Int :=
  match (List.range (buf.length + 1)).find?
      (fun i => decide (start ≤ i) && sub.isPrefixOf (buf.drop i)) with
  | some i => (i : Int)
  | none => -1

/-- Loop body of `ReceiveBuffer._find_escaped`: scan from index `i`,
skipping stuffed `DLE DLE` pairs, for an occurrence of `sub`.  The
Python loop falls off the end without a `return`, so the not-found
result is `None`, embedded as `none`.  The loop runs while
`i < len(buf)` and every iteration increases `i`, so any fuel of at
least `buf.length` makes the fuel bound unreachable. -/
def find_escaped_from (buf sub : List Byte) : Nat → Nat → Option Nat
  | 0, _ => none
  | fuel + 1, i =>
    if i < buf.length then
      if dle_dle_bytes.isPrefixOf (buf.drop i) then
        find_escaped_from buf sub fuel (i + 2)
      else if sub.isPrefixOf (buf.drop i) then
        some i
      else
        find_escaped_from buf sub fuel (i + 1)
    else
      none

/-- `ReceiveBuffer._find_escaped(sub)`: starts the scan at 2. -/
def find_escaped (buf sub : List Byte) : Option Nat :=
  find_escaped_from buf sub (buf.length + 1) 2

/-- `ReceiveBuffer._find_next_system_dle(after_initial_stx)`.

With `after_initial_stx = true` every token is looked up via
`_find_escaped`, which yields `None` when the token is absent; the list
comprehension `[i for i in indexes if i >= 0]` then evaluates
`None >= 0`, a Python `TypeError`, embedded as `.error .typeError`.
With `after_initial_stx = false`, `bytes.find` is used, every index is
an `int`, and the minimum of the non-negative ones (default `-1`) is
returned. -/
def find_next_system_dle (buf : List Byte) (after_initial_stx : Bool) :
    Except PyErr Int :=
  if after_initial_stx then
    match find_escaped buf dle_stx_bytes, find_escaped buf dle_ack_bytes,
        find_escaped buf dle_enq_bytes, find_escaped buf dle_nak_bytes with
    | some a, some b, some c, some d =>
        .ok (min (min (a : Int) (b : Int)) (min (c : Int) (d : Int)))
    | _, _, _, _ => .error .typeError
  else
    let idxs : List Int :=
      [bytesFind buf dle_stx_bytes 0, bytesFind buf dle_ack_bytes 0,
       bytesFind buf dle_enq_bytes 0, bytesFind buf dle_nak_bytes 0]
    let nonneg := idxs.filter (fun i => decide (0 ≤ i))
    match nonneg.min? with
    | some m => .ok m
    | none => .ok (-1)

/-- `ReceiveBuffer._clean_receive_buffer_start`. -/
def clean_receive_buffer_start (buf : List Byte) : Except PyErr (List Byte) :=
  if buf ≠ [] then
    if buf.length > 1 ∨ buf.headD 0 ≠ DLE then
      match find_next_system_dle buf false with
      | .error e => .error e
      | .ok idx =>
          if idx = -1 then .ok []
          else if 0 ≤ idx then .ok (buf.drop idx.toNat)
          else .ok buf
    else .ok buf
  else .ok buf

/-- One decision of the `while not clean` loop in
`ReceiveBuffer._clean_receive_buffer`: after cleaning the start, if the
head is `DLE STX` and a system token strictly precedes the first
`DLE ETX`, drop up to that token and go round again.  Every iteration
that loops drops at least two bytes (the escaped scan starts at 2), so
fuel `buf.length + 1` always suffices; on fuel exhaustion the current
buffer is returned unchanged. -/
def clean_receive_buffer_loop (fuel : Nat) (buf : List Byte) :
    Except PyErr (List Byte) :=
  match fuel with
  | 0 => .ok buf
  | fuel + 1 =>
    match clean_receive_buffer_start buf with
    | .error e => .error e
    | .ok buf1 =>
      if buf1.length ≥ 2 ∧ buf1.take 2 = dle_stx_bytes then
        match find_next_system_dle buf1 true with
        | .error e => .error e
        | .ok idx =>
          let etx := bytesFind buf1 dle_etx_bytes 2
          if 0 ≤ idx ∧ idx < etx then
            clean_receive_buffer_loop fuel (buf1.drop idx.toNat)
          else .ok buf1
      else .ok buf1

/-- `ReceiveBuffer._clean_receive_buffer`. -/
def clean_receive_buffer (buf : List Byte) : Except PyErr (List Byte) :=
  clean_receive_buffer_loop (buf.length + 1) buf

/-- `ReceiveBuffer._get_short_reply_position(reply_bytes)`. -/
def get_short_reply_position (buf reply_bytes : List Byte) :
    Option (Nat × Nat) :=
  let index := bytesFind buf reply_bytes 0
  if 0 ≤ index then some (index.toNat, index.toNat + 2) else none

/-- `ReceiveBuffer._get_stx_etx_frame_position`.  Note that the
`DLE ETX` terminator is looked up with a plain `bytes.find`, with no
regard for DLE stuffing. -/
def get_stx_etx_frame_position (buf : List Byte) : Option (Nat × Nat) :=
  let dle_stx_index := bytesFind buf dle_stx_bytes 0
  let dle_etx_index := bytesFind buf dle_etx_bytes 0
  if 0 ≤ dle_stx_index ∧ 0 ≤ dle_etx_index ∧
      buf.length ≥ dle_etx_index.toNat + 4 then
    some (dle_stx_index.toNat, dle_etx_index.toNat + 4)
  else none

/-- `ReceiveBuffer._get_full_frame_position`: the first non-`None`
entry of the list, with the STX/ETX data-frame position tried first. -/
def get_full_frame_position (buf : List Byte) : Option (Nat × Nat) :=
  match get_stx_etx_frame_position buf with
  | some p => some p
  | none =>
    match get_short_reply_position buf dle_ack_bytes with
    | some p => some p
    | none =>
      match get_short_reply_position buf dle_enq_bytes with
      | some p => some p
      | none => get_short_reply_position buf dle_nak_bytes

/-- Python `del buf[a:b]`: removes the indices in `[a, max a b)`. -/
def delSlice (buf : List Byte) (a b : Nat) : List Byte :=
  buf.take a ++ buf.drop (max a b)

/-- Python `buf[a:b]`. -/
def getSlice (buf : List Byte) (a b : Nat) : List Byte :=
  (buf.drop a).take (b - a)

/-- `ReceiveBuffer.pop_left_frames`, run to exhaustion.  The generator
repeatedly cleans the buffer, extracts the full frame at the reported
position and deletes it.  The result is the list of frames yielded so
far paired with either the final buffer (normal termination) or the
exception that the iteration raised after those yields.  `none` means
the fuel ran out (the Python generator would still be looping). -/
def pop_left_frames_go (fuel : Nat) (buf : List Byte)
    (acc : List (List Byte)) :
    Option (List (List Byte) × Except PyErr (List Byte)) :=
  match fuel with
  | 0 => none
  | fuel + 1 =>
    match clean_receive_buffer buf with
    | .error e => some (acc.reverse, .error e)
    | .ok buf1 =>
      match get_full_frame_position buf1 with
      | none => some (acc.reverse, .ok buf1)
      | some (a, b) =>
          pop_left_frames_go fuel (delSlice buf1 a b)
            (getSlice buf1 a b :: acc)

/-- Iterating `ReceiveBuffer.pop_left_frames` to exhaustion. -/
def pop_left_frames (fuel : Nat) (buf : List Byte) :
    Option (List (List Byte) × Except PyErr (List Byte)) :=
  pop_left_frames_go fuel buf []

/-- `ReceiveBuffer.extend(other_bytes)`: appends only when the buffer
currently holds fewer than 4096 bytes, otherwise raises
`OverflowError` (the chunk about to be appended plays no part in the
check). -/
def extend (buf other_bytes : List Byte) : Except PyErr (List Byte) :=
  if buf.length < 4096 then .ok (buf ++ other_bytes)
  else .error .overflowError

/-- A sequence of `extend` calls starting from the given buffer. -/
def extend_seq_from (buf : List Byte) :
    List (List Byte) → Except PyErr (List Byte)
  | [] => .ok buf
  | c :: cs =>
    match extend buf c with
    | .error e => .error e
    | .ok buf1 => extend_seq_from buf1 cs

/-- A sequence of `extend` calls on an initially empty receive buffer. -/
def extend_seq (chunks : List (List Byte)) : Except PyErr (List Byte) :=
  extend_seq_from [] chunks

/-! ### File types and command encoders (`src/df1/commands/commands.py`)

`FileType` is modelled from the spec: `file_type.py` is not among the
provided source files; the spec fixes the enumeration tags and values. -/

inductive FileType where
  | STATUS | BIT | TIMER | COUNTER | CONTROL
  | INTEGER | FLOAT | OUT_LOGIC | IN_LOGIC | ASCII
  deriving Repr, DecidableEq

def FileType.value : FileType → Byte
  | .STATUS => 0x84
  | .BIT => 0x85
  | .TIMER => 0x86
  | .COUNTER => 0x87
  | .CONTROL => 0x88
  | .INTEGER => 0x89
  | .FLOAT => 0x8A
  | .OUT_LOGIC => 0x8B
  | .IN_LOGIC => 0x8C
  | .ASCII => 0x8E

/-- Modelled from the spec: `BaseCommand._swap_endian` lives in
`base_command.py`, which is not among the provided source files; the
spec says each word is emitted low byte first, then high byte. -/
def swap_endian (w : Nat) : List Byte :=
  [w &&& 0xff, (w >>> 8) &&& 0xff]

/-- The part of a constructed command that the claims inspect.
Modelled from the spec: `BaseCommand.init_with_params` (in the missing
`base_command.py`) stores `cmd`, `fnc` and the assembled
`command_data`. -/
structure Command where
  cmd : Byte
  fnc : Byte
  command_data : List Byte
  deriving Repr, DecidableEq

/-- `Command0FA2.init_with_params` (protected typed logical read with
three address fields). -/
def command0FA2_init (bytes_to_read table : Nat) (file_type : FileType)
    (start : Nat) (start_sub : Nat := 0) : Except PyErr Command :=
  if start > 0xfe ∨ start_sub > 0xfe ∨ table > 0xfe then
    .error (.notImplemented
      "Table, start and start sub higher than 0xfe not supported yet.")
  else
    .ok ⟨0x0f, 0xa2, [bytes_to_read, table, file_type.value, start, start_sub]⟩

/-- `Command0FAA.init_with_params` (protected typed logical write with
three address fields).  The byte serialisation of `data_to_write` is
computed, and an unsupported file type rejected, before the address
fields are checked.  The FLOAT branch is `bytes(data_to_write)`, and
Python's `bytes()` validates every entry to be an integer in
`range(0, 256)`, raising `ValueError` otherwise (entries are `Nat`
here, so only the upper bound can fail). -/
def command0FAA_serialise (file_type : FileType) (data_to_write : List Nat) :
    Except PyErr (List Byte) :=
  if file_type = .INTEGER ∨ file_type = .OUT_LOGIC ∨ file_type = .BIT ∨
      file_type = .CONTROL then
    .ok (data_to_write.flatMap swap_endian)
  else if file_type = .FLOAT then
    if data_to_write.all (fun b => decide (b < 256)) then
      .ok data_to_write
    else
      .error .valueError
  else
    .error (.notImplemented "")

def command0FAA_init (table : Nat) (file_type : FileType) (start : Nat)
    (data_to_write : List Nat) (start_sub : Nat := 0) : Except PyErr Command :=
  match command0FAA_serialise file_type data_to_write with
  | .error e => .error e
  | .ok bytes_to_write =>
    if start > 0xfe ∨ start_sub > 0xfe ∨ table > 0xfe then
      .error (.notImplemented
        "Table, start, and start sub higher than 0xfe not supported yet.")
    else
      .ok ⟨0x0f, 0xaa,
        [bytes_to_write.length, table, file_type.value, start, start_sub]
          ++ bytes_to_write⟩

/-- `Command0FAB.init_with_params` (protected typed logical write with
mask). -/
def command0FAB_serialise (file_type : FileType) (data_to_write : List Nat) :
    Except PyErr (List Byte) :=
  if file_type = .INTEGER ∨ file_type = .BIT ∨ file_type = .FLOAT then
    .ok (data_to_write.flatMap swap_endian)
  else
    .error (.notImplemented "")

def command0FAB_init (table : Nat) (file_type : FileType) (start : Nat)
    (bit_mask : Nat) (data_to_write : List Nat) (start_sub : Nat := 0) :
    Except PyErr Command :=
  match command0FAB_serialise file_type data_to_write with
  | .error e => .error e
  | .ok bytes_to_write =>
    if start > 0xfe ∨ start_sub > 0xfe ∨ table > 0xfe then
      .error (.notImplemented
        "Table, start, and start sub higher than 0xfe not supported yet.")
    else
      .ok ⟨0x0f, 0xab,
        [bytes_to_write.length, table, file_type.value, start, start_sub]
          ++ swap_endian bit_mask ++ bytes_to_write⟩

/-- `Command0F04.init_with_params`. -/
def command0F04_init (bytes_to_read table : Nat) (file_type : FileType)
    (start : Nat) (start_sub : Nat := 0) : Except PyErr Command :=
  if start > 0xfe ∨ start_sub > 0xfe ∨ table > 0xfe then
    .error (.notImplemented
      "Table, start and start sub higher than 0xfe not supported yet.")
  else
    .ok ⟨0x0f, 0x04, [bytes_to_read, table, file_type.value, start, start_sub]⟩

/-- `Command0603.init_with_params`. -/
def command0603_init (bytes_to_read table : Nat) (file_type : FileType)
    (start : Nat) (start_sub : Nat := 0) : Except PyErr Command :=
  if start > 0xfe ∨ start_sub > 0xfe ∨ table > 0xfe then
    .error (.notImplemented
      "Table, start and start sub higher than 0xfe not supported yet.")
  else
    .ok ⟨0x06, 0x03, [bytes_to_read, table, file_type.value, start, start_sub]⟩

/-! ### Reply 0x4F decoding (`src/df1/replies/reply_4f.py`) -/

/-- `Reply4f.__pop_integer_data`: consumes the byte list two at a time,
producing `(lo & 0xff) + (hi << 8)`.  With an odd number of bytes the
second `pop(0)` of the last round raises `IndexError`. -/
def pop_integer_data : List Byte → Except PyErr (List Nat)
  | [] => .ok []
  | [_] => .error .indexError
  | lo :: hi :: rest =>
    match pop_integer_data rest with
    | .error e => .error e
    | .ok ws => .ok (((lo &&& 0xff) + (hi <<< 8)) :: ws)

/-- `Reply4f.__pop_float_data`, up to the IEEE-754 bit-pattern decode:
the data is consumed four bytes at a time.  Floating-point values are
represented by the four source bytes of each single (the
`struct.unpack` step is a bijection on bit patterns that the checked
claims never inspect). -/
def pop_float_data : List Byte → List (List Byte)
  | [] => []
  | [a] => [[a]]
  | [a, b] => [[a, b]]
  | [a, b, c] => [[a, b, c]]
  | a :: b :: c :: d :: rest => [a, b, c, d] :: pop_float_data rest

/-- The value lists `Reply4f.get_data` can return: integer words (also
used for raw ASCII/STATUS bytes and bit words) or IEEE-754 singles,
the latter represented by their four wire bytes. -/
inductive DataVals where
  | ints (xs : List Nat)
  | floats (chunks : List (List Byte))
  deriving Repr, DecidableEq

def DataVals.length : DataVals → Nat
  | .ints xs => xs.length
  | .floats cs => cs.length

/-- `Reply4f.get_data(file_type)` over the reply's command-data bytes
(`_get_command_data`, in the missing `base_data_frame.py`, returns the
stored data bytes; modelled from the spec). -/
def get_data (file_type : FileType) (data : List Byte) :
    Except PyErr DataVals :=
  match file_type with
  | .ASCII | .STATUS => .ok (.ints data)
  | .INTEGER =>
    if data.length % 2 ≠ 0 then .error .arithmeticError
    else
      match pop_integer_data data with
      | .error e => .error e
      | .ok ws => .ok (.ints ws)
  | .BIT =>
    match pop_integer_data data with
    | .error e => .error e
    | .ok ws => .ok (.ints ws)
  | .FLOAT =>
    if data.length = 0 then .ok (.floats [])
    else if data.length % 4 ≠ 0 then .error .arithmeticError
    else .ok (.floats (pop_float_data data))
  | _ => .error (.notImplemented
      "Only INTEGER, Float, BIT are implemented at the moment.")

/-! ### Transaction engine (`src/df1/models/df1_base.py`)

The engine exchanges parsed replies.  `frame_factory.parse` is not
among the provided source files; the message alternatives are modelled
from the spec: short `Ack`/`Nak`/`Enq` replies, the synthetic
`Timeout` produced by `_expect_message`, the `0x4F` data reply (valid
iff its CRC matches and sts is 0, carried here as the `valid` flag
together with the transaction number and data bytes), and `Unknown`
for data frames with any other command code (carried here with its
validity flag and transaction number). -/

inductive Msg where
  | ack
  | nak
  | enq
  | timeout
  | data4f (valid : Bool) (tns : Nat) (data : List Byte)
  | unknownMsg (valid : Bool) (tns : Nat)
  deriving Repr, DecidableEq

/-- `reply.is_valid()`.  Short replies are always valid (modelled from
the spec: simple replies carry no CRC); data frames carry their CRC/sts
verdict in the `valid` flag. -/
def Msg.is_valid : Msg → Bool
  | .data4f v _ _ => v
  | .unknownMsg v _ => v
  | _ => true

/-- Is the message a data frame (a `BaseDataFrame` subclass)? -/
def Msg.isDataFrame : Msg → Bool
  | .data4f _ _ _ => true
  | .unknownMsg _ _ => true
  | _ => false

/-- The bytes the engine pushes to the transport.  `frame tns` stands
for `command.get_bytes()` of the outstanding command whose transaction
number is `tns` (`get_bytes` lives in the missing `base_command.py`);
`raw` carries literal bytes such as the two-byte control replies. -/
inductive Output where
  | frame (tns : Nat)
  | raw (bs : List Byte)
  deriving Repr, DecidableEq

/-- The engine state that the receiver path touches.
`command_sent` holds the transaction number of the outstanding command
(`none` before any command was sent). -/
structure EngineState where
  last_response : List Byte
  messages_sink : List Msg
  messages_dropped : Nat
  command_sent : Option Nat
  deriving Repr, DecidableEq

/-- The state right after `Df1BaseClient.__init__`:
`_last_response = [DLE, NAK]`, empty sink, no drops, no command sent
(the outstanding command is a parameter, since claims quantify over
mid-session states as well). -/
def initState (command_sent : Option Nat) : EngineState :=
  ⟨[DLE, NAK], [], 0, command_sent⟩

/-- `Df1BaseClient._process_frame_buffer` applied to a parsed message:
returns the successor state and the bytes sent, or the exception the
Python code would raise.  On an `Enq` the recorded `last_response`
pair is retransmitted; a valid data frame is acknowledged with
`DLE ACK` and pushed only when its transaction number matches the
outstanding command's; an invalid one draws `DLE NAK`; every other
message is pushed onto the sink and resets `last_response` to
`DLE NAK`.  When a valid data frame arrives while no command was ever
sent, `self._command_sent.tns` raises `AttributeError` (after the ACK
has gone out; the partial output is dropped with the exception). -/
def process_frame_buffer (st : EngineState) (message : Msg) :
    Except PyErr (EngineState × List Output) :=
  match message with
  | .enq => .ok (st, [.raw st.last_response])
  | .data4f valid tns _ =>
    if valid then
      match st.command_sent with
      | none => .error .attributeError
      | some ct =>
        let st1 := { st with last_response := [DLE, ACK] }
        if ct = tns then
          .ok ({ st1 with messages_sink := st.messages_sink ++ [message] },
            [.raw [DLE, ACK]])
        else
          .ok (st1, [.raw [DLE, ACK]])
    else
      .ok ({ st with last_response := [DLE, NAK] }, [.raw [DLE, NAK]])
  | .unknownMsg valid tns =>
    if valid then
      match st.command_sent with
      | none => .error .attributeError
      | some ct =>
        let st1 := { st with last_response := [DLE, ACK] }
        if ct = tns then
          .ok ({ st1 with messages_sink := st.messages_sink ++ [message] },
            [.raw [DLE, ACK]])
        else
          .ok (st1, [.raw [DLE, ACK]])
    else
      .ok ({ st with last_response := [DLE, NAK] }, [.raw [DLE, NAK]])
  | _ =>
    .ok ({ st with
      messages_sink := st.messages_sink ++ [message],
      last_response := [DLE, NAK] }, [])

/-- Processing a whole trace of inbound frames, concatenating the sent
bytes. -/
def run_frames (st : EngineState) :
    List Msg → Except PyErr (EngineState × List Output)
  | [] => .ok (st, [])
  | m :: rest =>
    match process_frame_buffer st m with
    | .error e => .error e
    | .ok (st1, out) =>
      match run_frames st1 rest with
      | .error e => .error e
      | .ok (st2, outs) => .ok (st2, out ++ outs)

/-- Processing a trace, keeping the bytes each frame caused to be sent
as a separate chunk. -/
def run_frames_chunks (st : EngineState) :
    List Msg → Except PyErr (EngineState × List (List Output))
  | [] => .ok (st, [])
  | m :: rest =>
    match process_frame_buffer st m with
    | .error e => .error e
    | .ok (st1, out) =>
      match run_frames_chunks st1 rest with
      | .error e => .error e
      | .ok (st2, outs) => .ok (st2, out :: outs)

/-- The most recent two-byte `DLE ACK` or `DLE NAK` among the bytes
sent, if any. -/
def sent_ack_nak (outs : List Output) : Option (List Byte) :=
  (outs.filterMap fun o =>
    match o with
    | .raw bs => if bs = [DLE, ACK] ∨ bs = [DLE, NAK] then some bs else none
    | .frame _ => none).getLast?

/-- One step of the claim's tracking of `last_response`: reset to
`DLE NAK` when a short ACK/NAK reply is received, otherwise the most
recent `DLE ACK`/`DLE NAK` the engine sent while handling the message,
and unchanged when it sent neither. -/
def claim_step (prev : List Byte) (m : Msg) (out : List Output) :
    List Byte :=
  if m = .ack ∨ m = .nak then [DLE, NAK]
  else
    match sent_ack_nak out with
    | some p => p
    | none => prev

/-- The claim's tracking of `last_response`, stated over the observable
history (each inbound message paired with the bytes its processing sent
out): the byte pair of the most recent `DLE ACK` or `DLE NAK` the
engine sent, starting from `DLE NAK`, and reset to `DLE NAK` whenever a
short ACK/NAK reply is received. -/
def claim_last_response (init : List Byte) :
    List (Msg × List Output) → List Byte
  | [] => init
  | (m, out) :: rest => claim_last_response (claim_step init m out) rest

/-! #### `send_command` (`df1_base.py`, page 4-6 transmitter loop)

`_expect_message` blocks on the message sink and yields a synthetic
`ReplyTimeout` after `timeout_read_msg`; it is embedded as consuming
the head of a script of replies, an empty script yielding `Timeout`.
The outstanding command is identified by its transaction number:
`command.get_bytes()` is summarised as `Output.frame command.tns`, and
the NAK branch reallocates the number exactly as `_get_new_tns`
does. -/

/-- `Df1BaseClient._get_new_tns`. -/
def get_new_tns (last_tns : Nat) : Nat :=
  if last_tns + 1 > 0xffff then 0 else last_tns + 1

/-- The transmitter-side state: the engine's TNS counter, the
outstanding command's transaction number (`command.tns`, aliased by
`_command_sent`), and the `_messages_dropped` counter. -/
structure TxState where
  last_tns : Nat
  cmd_tns : Nat
  dropped : Nat
  deriving Repr, DecidableEq

/-- How one run of the inner `while i < 3` reply loop ended. -/
inductive InnerResult where
  | success (m : Msg)
  | err (e : PyErr)
  | fell (retry_send : Bool)
  deriving Repr, DecidableEq

/-- The inner `while i < 3` loop of `send_command`: pops scripted
replies, handling ACK (note after an ACK the counter restarts at 1:
`i = 0` is followed by the loop-end `i += 1`), NAK (new TNS, mark
retry), timeout or invalid reply (send `DLE NAK` when an ACK had been
seen, else `DLE ENQ`, and break), matching data reply (success) and
mismatching data reply (drop and restart).  Returns the updated state,
the unconsumed script, the bytes sent, and how the loop ended. -/
def send_command_inner (st : TxState) (script : List Msg) (i : Nat)
    (got_ack retry_send : Bool) :
    TxState × List Msg × List Output × InnerResult :=
  if i < 3 then
    match script with
    | [] =>
      if got_ack then (st, [], [.raw [DLE, NAK]], .fell retry_send)
      else (st, [], [.raw [DLE, ENQ]], .fell retry_send)
    | reply :: rest =>
      match reply with
      | .ack => send_command_inner st rest 1 true retry_send
      | .nak =>
        let nt := get_new_tns st.last_tns
        send_command_inner { st with last_tns := nt, cmd_tns := nt } rest
          (i + 1) got_ack true
      | .timeout =>
        if got_ack then (st, rest, [.raw [DLE, NAK]], .fell retry_send)
        else (st, rest, [.raw [DLE, ENQ]], .fell retry_send)
      | m =>
        if !m.is_valid then
          if got_ack then (st, rest, [.raw [DLE, NAK]], .fell retry_send)
          else (st, rest, [.raw [DLE, ENQ]], .fell retry_send)
        else if got_ack then
          match m with
          | .data4f _ tns _ =>
            if st.cmd_tns = tns then (st, rest, [], .success m)
            else
              send_command_inner { st with dropped := st.dropped + 1 } rest
                1 false retry_send
          | .unknownMsg _ tns =>
            if st.cmd_tns = tns then (st, rest, [], .success m)
            else
              send_command_inner { st with dropped := st.dropped + 1 } rest
                1 false retry_send
          | _ => (st, rest, [], .err .attributeError)
        else
          send_command_inner st rest (i + 1) got_ack retry_send
  else (st, script, [], .fell retry_send)

/-- The outer `for __ in range(3)` loop of `send_command`: each attempt
emits the command bytes and runs the inner loop; the next attempt
happens only when the inner loop had marked `retry_send` (the NAK
path); otherwise `SendReceiveError` is raised at once.  After three
attempts `SendReceiveError` is raised. -/
def send_command_outer (st : TxState) (script : List Msg) :
    Nat → TxState × List Output × Except PyErr Msg
  | 0 => (st, [], .error .sendReceiveError)
  | n + 1 =>
    let r := send_command_inner st script 0 false false
    match r.2.2.2 with
    | .success m => (r.1, .frame st.cmd_tns :: r.2.2.1, .ok m)
    | .err e => (r.1, .frame st.cmd_tns :: r.2.2.1, .error e)
    | .fell retry =>
      if retry then
        let r2 := send_command_outer r.1 r.2.1 n
        (r2.1, (.frame st.cmd_tns :: r.2.2.1) ++ r2.2.1, r2.2.2)
      else (r.1, .frame st.cmd_tns :: r.2.2.1, .error .sendReceiveError)

/-- `Df1BaseClient.send_command` for a command whose transaction number
is `cmd_tns`, against a script of replies: the final transmitter
state, every byte pushed to the transport, and the returned reply or
raised exception. -/
def send_command (last_tns cmd_tns : Nat) (script : List Msg) :
    TxState × List Output × Except PyErr Msg :=
  send_command_outer ⟨last_tns, cmd_tns, 0⟩ script 3

/-! #### Read helpers (`df1_base.py`)

Each helper builds a `Command0FA2`, sends it, decodes the reply, and
sets `read_ok` and `data` before returning `read_ok`.  `send_command`
is summarised by its outcome, a parameter: either the data reply it
returned (tns plus data bytes) or the exception it raised, which the
helper turns into a fresh `SendReceiveError`.  The result triple is
(the Python return value, `self.read_ok`, `self.data`). -/

/-- A Python value a helper could hand back: the helpers return the
boolean `read_ok`, while the claim expects the decoded list. -/
inductive PyVal where
  | pybool (b : Bool)
  | pylist (v : DataVals)
  deriving Repr, DecidableEq

/-- The data reply `send_command` handed back: its transaction number
and its command-data bytes. -/
structure ReplyData where
  tns : Nat
  rdata : List Byte
  deriving Repr, DecidableEq

/-- The `BIT` selector enum of `df1_base.py`: a single bit position
0..15, or `ALL` (0xA0) for whole words. -/
inductive BitSel where
  | ALL
  | BITn (v : Nat)
  deriving Repr, DecidableEq

/-- The `TIMER` category enum of `df1_base.py`. -/
inductive TimerCat where
  | EN | TI | DN | PRE | ACC | STATUS
  deriving Repr, DecidableEq

/-- The `COUNTER` category enum of `df1_base.py`. -/
inductive CounterCat where
  | CU | CD | DN | OV | UN | UA | PRE | ACC | STATUS
  deriving Repr, DecidableEq

/-- Projection of decoded integer words through a `BIT` selector, as in
the loops of `read_output` / `read_input` / `read_binary`.  Iterating
a float list and shifting would raise `TypeError` (unreachable for
`get_data FileType.INTEGER`). -/
def project_bits (bit : BitSel) (raw : DataVals) : Except PyErr DataVals :=
  match bit, raw with
  | .ALL, v => .ok v
  | .BITn b, .ints xs => .ok (.ints (xs.map fun d => (d >>> b) &&& 1))
  | .BITn _, .floats _ => .error .typeError

/-- `Df1BaseClient.read_output`. -/
def read_output (last_tns file_table start : Nat) (bit : BitSel)
    (total_int : Nat) (send_result : Except Unit ReplyData) :
    Except PyErr (PyVal × Bool × DataVals) :=
  match command0FA2_init (total_int * 2) file_table .OUT_LOGIC start 0 with
  | .error e => .error e
  | .ok _ =>
    match send_result with
    | .error _ => .error .sendReceiveError
    | .ok reply =>
      match get_data .INTEGER reply.rdata with
      | .error e => .error e
      | .ok raw =>
        match project_bits bit raw with
        | .error e => .error e
        | .ok values =>
          let read_ok := decide (0 < values.length) &&
            decide (get_new_tns last_tns = reply.tns)
          .ok (.pybool read_ok, read_ok,
            if read_ok then values else .ints [])

/-- `Df1BaseClient.read_input`. -/
def read_input (last_tns file_table start : Nat) (bit : BitSel)
    (total_int : Nat) (send_result : Except Unit ReplyData) :
    Except PyErr (PyVal × Bool × DataVals) :=
  match command0FA2_init (total_int * 2) file_table .IN_LOGIC start 0 with
  | .error e => .error e
  | .ok _ =>
    match send_result with
    | .error _ => .error .sendReceiveError
    | .ok reply =>
      match get_data .INTEGER reply.rdata with
      | .error e => .error e
      | .ok raw =>
        match project_bits bit raw with
        | .error e => .error e
        | .ok values =>
          let read_ok := decide (0 < values.length) &&
            decide (get_new_tns last_tns = reply.tns)
          .ok (.pybool read_ok, read_ok,
            if read_ok then values else .ints [])

/-- `Df1BaseClient.read_binary`. -/
def read_binary (last_tns file_table start : Nat) (bit : BitSel)
    (total_int : Nat) (send_result : Except Unit ReplyData) :
    Except PyErr (PyVal × Bool × DataVals) :=
  match command0FA2_init (total_int * 2) file_table .BIT start 0 with
  | .error e => .error e
  | .ok _ =>
    match send_result with
    | .error _ => .error .sendReceiveError
    | .ok reply =>
      match get_data .INTEGER reply.rdata with
      | .error e => .error e
      | .ok raw =>
        match project_bits bit raw with
        | .error e => .error e
        | .ok values =>
          let read_ok := decide (0 < values.length) &&
            decide (get_new_tns last_tns = reply.tns)
          .ok (.pybool read_ok, read_ok,
            if read_ok then values else .ints [])

/-- The per-word projection of `read_timer` for a status category:
`status = data >> 12`, then the EN/TI/DN bit if asked for. -/
def timer_word (category : TimerCat) (d : Nat) : Nat :=
  let status := d >>> 12
  match category with
  | .EN => (status >>> 3) &&& 1
  | .TI => (status >>> 2) &&& 1
  | .DN => (status >>> 1) &&& 1
  | _ => status

/-- The category projection step of `read_timer`: for `PRE`/`ACC` the
decoded words pass through unchanged; otherwise each word is projected
through `timer_word` (iterating a float list here would raise
`TypeError`; unreachable for `get_data FileType.INTEGER`). -/
def project_timer (category : TimerCat) (raw : DataVals) :
    Except PyErr DataVals :=
  if category = .PRE ∨ category = .ACC then .ok raw
  else
    match raw with
    | .ints xs => .ok (.ints (xs.map (timer_word category)))
    | .floats _ => .error .typeError

/-- The `start_sub` address `read_timer` derives from the category:
1 for `PRE`, 2 for `ACC`, 0 for the status bits. -/
def timer_sub (category : TimerCat) : Nat :=
  match category with
  | .PRE => 1
  | .ACC => 2
  | _ => 0

/-- `Df1BaseClient.read_timer`. -/
def read_timer (last_tns file_table start : Nat) (category : TimerCat)
    (total_int : Nat) (send_result : Except Unit ReplyData) :
    Except PyErr (PyVal × Bool × DataVals) :=
  match command0FA2_init (total_int * 2) file_table .TIMER start
      (timer_sub category) with
  | .error e => .error e
  | .ok _ =>
    match send_result with
    | .error _ => .error .sendReceiveError
    | .ok reply =>
      match get_data .INTEGER reply.rdata with
      | .error e => .error e
      | .ok raw =>
        match project_timer category raw with
        | .error e => .error e
        | .ok values =>
          let read_ok := decide (0 < values.length) &&
            decide (get_new_tns last_tns = reply.tns)
          .ok (.pybool read_ok, read_ok,
            if read_ok then values else .ints [])

/-- The per-word projection of `read_counter` for a status category:
`status = data >> 10`, then the requested bit. -/
def counter_word (category : CounterCat) (d : Nat) : Nat :=
  let status := d >>> 10
  match category with
  | .CU => (status >>> 5) &&& 1
  | .CD => (status >>> 4) &&& 1
  | .DN => (status >>> 3) &&& 1
  | .OV => (status >>> 2) &&& 1
  | .UN => (status >>> 1) &&& 1
  | .UA => status &&& 1
  | _ => status

/-- The category projection step of `read_counter`, analogous to
`project_timer`. -/
def project_counter (category : CounterCat) (raw : DataVals) :
    Except PyErr DataVals :=
  if category = .PRE ∨ category = .ACC then .ok raw
  else
    match raw with
    | .ints xs => .ok (.ints (xs.map (counter_word category)))
    | .floats _ => .error .typeError

/-- The `start_sub` address `read_counter` derives from the category:
1 for `PRE`, 2 for `ACC`, 0 for the status bits. -/
def counter_sub (category : CounterCat) : Nat :=
  match category with
  | .PRE => 1
  | .ACC => 2
  | _ => 0

/-- `Df1BaseClient.read_counter`. -/
def read_counter (last_tns file_table start : Nat) (category : CounterCat)
    (total_int : Nat) (send_result : Except Unit ReplyData) :
    Except PyErr (PyVal × Bool × DataVals) :=
  match command0FA2_init (total_int * 2) file_table .COUNTER start
      (counter_sub category) with
  | .error e => .error e
  | .ok _ =>
    match send_result with
    | .error _ => .error .sendReceiveError
    | .ok reply =>
      match get_data .INTEGER reply.rdata with
      | .error e => .error e
      | .ok raw =>
        match project_counter category raw with
        | .error e => .error e
        | .ok values =>
          let read_ok := decide (0 < values.length) &&
            decide (get_new_tns last_tns = reply.tns)
          .ok (.pybool read_ok, read_ok,
            if read_ok then values else .ints [])

/-- `Df1BaseClient.read_register`. -/
def read_register (last_tns file_table start total_int : Nat)
    (send_result : Except Unit ReplyData) :
    Except PyErr (PyVal × Bool × DataVals) :=
  match command0FA2_init (total_int * 2) file_table .CONTROL start 0 with
  | .error e => .error e
  | .ok _ =>
    match send_result with
    | .error _ => .error .sendReceiveError
    | .ok reply =>
      match get_data .INTEGER reply.rdata with
      | .error e => .error e
      | .ok values =>
        let read_ok := decide (0 < values.length) &&
          decide (get_new_tns last_tns = reply.tns)
        .ok (.pybool read_ok, read_ok,
          if read_ok then values else .ints [])

/-- `Df1BaseClient.read_integer`. -/
def read_integer (last_tns file_table start total_int : Nat)
    (send_result : Except Unit ReplyData) :
    Except PyErr (PyVal × Bool × DataVals) :=
  match command0FA2_init (total_int * 2) file_table .INTEGER start 0 with
  | .error e => .error e
  | .ok _ =>
    match send_result with
    | .error _ => .error .sendReceiveError
    | .ok reply =>
      match get_data .INTEGER reply.rdata with
      | .error e => .error e
      | .ok values =>
        let read_ok := decide (0 < values.length) &&
          decide (get_new_tns last_tns = reply.tns)
        .ok (.pybool read_ok, read_ok,
          if read_ok then values else .ints [])

/-- `Df1BaseClient.read_float`. -/
def read_float (last_tns file_table start total_float : Nat)
    (send_result : Except Unit ReplyData) :
    Except PyErr (PyVal × Bool × DataVals) :=
  match command0FA2_init (total_float * 4) file_table .FLOAT start 0 with
  | .error e => .error e
  | .ok _ =>
    match send_result with
    | .error _ => .error .sendReceiveError
    | .ok reply =>
      match get_data .FLOAT reply.rdata with
      | .error e => .error e
      | .ok values =>
        let read_ok := decide (0 < values.length) &&
          decide (get_new_tns last_tns = reply.tns)
        .ok (.pybool read_ok, read_ok,
          if read_ok then values else .ints [])

/-! ### Concrete wire inputs used by the verification -/

/-- A receive buffer holding exactly one well-formed data frame and
nothing else: `DLE STX`, the header `dst=01 src=00 cmd=4F sts=00
tns=5161`, one data word `0A 00`, `DLE ETX`, and two CRC bytes.  None
of the four system tokens occurs at or after position 2. -/
def oneFrameBuffer : List Byte :=
  [0x10, 0x02, 0x01, 0x00, 0x4F, 0x00, 0x61, 0x51, 0x0A, 0x00,
   0x10, 0x03, 0x07, 0x09]

/-- A buffer whose head is a `DLE STX` data frame whose body carries a
stuffed `DLE DLE` pair immediately followed by an `0x03` byte (indices
8..10), with the true `DLE ETX` at index 11 and CRC bytes at 13..14,
followed by trailing bytes in which every system token occurs (so the
interior cleanup scan finds them all). -/
def stuffedEtxBuffer : List Byte :=
  [0x10, 0x02, 0x01, 0x00, 0x4F, 0x00, 0x07, 0x08,
   0x10, 0x10, 0x03,
   0x10, 0x03, 0x09, 0x09,
   0x10, 0x02, 0x10, 0x06, 0x10, 0x05, 0x10, 0x15]

/-- A buffer holding a complete short reply `DLE ACK` at index 0
followed by a complete data frame starting at index 2 (with `DLE ETX`
at index 10 and two CRC bytes). -/
def ackThenFrameBuffer : List Byte :=
  [0x10, 0x06,
   0x10, 0x02, 0x01, 0x00, 0x4F, 0x00, 0x07, 0x08, 0x10, 0x03,
   0x57, 0x63]

/-! ## Theorems -/

/-- Claim C1.  The claim asserts that draining `pop_left_frames` never
raises — in particular no `TypeError` from comparing a missing-token
search result with 0 — including on a buffer holding exactly one
well-formed data frame.  The code refutes this: on `oneFrameBuffer`
the head is `DLE STX`, so `_clean_receive_buffer` calls
`_find_next_system_dle(after_initial_stx=True)`, `_find_escaped`
returns `None` for the absent tokens, and `None >= 0` raises
`TypeError` before any frame is yielded.  The surrounding code
(`min([i for i in indexes if i >= 0] or [-1])`) plainly expects a `-1`
not-found sentinel, so this is a slip in `_find_escaped` (a missing
`return -1`), not the intent. -/
theorem c1_single_frame_raises_type_error :
    find_escaped oneFrameBuffer dle_ack_bytes = none ∧
    find_next_system_dle oneFrameBuffer true = .error .typeError ∧
    pop_left_frames 20 oneFrameBuffer = some ([], .error .typeError) := by
  decide

/-- Bound carried along a run of successful `extend` calls: a call
only succeeds from a buffer shorter than 4096 bytes, so the result
never exceeds 4095 plus the largest chunk. -/
theorem extend_seq_from_length_le (chunks : List (List Byte)) :
    ∀ (buf res : List Byte) (M : Nat),
      buf.length ≤ 4095 + M → (∀ c ∈ chunks, c.length ≤ M) →
      extend_seq_from buf chunks = .ok res → res.length ≤ 4095 + M := by
  induction chunks with
  | nil =>
    intro buf res M hb _ h
    simp only [extend_seq_from] at h
    cases h
    exact hb
  | cons c cs ih =>
    intro buf res M hb hc h
    simp only [extend_seq_from, extend] at h
    by_cases hlt : buf.length < 4096
    · rw [if_pos hlt] at h
      refine ih _ _ _ ?_ (fun d hd => hc d (by simp [hd])) h
      have := hc c (by simp)
      simp only [List.length_append]
      omega
    · rw [if_neg hlt] at h
      cases h

/-- Claim C6 counterexample.  The claim says `extend` fails whenever
the accumulated size would exceed 4096 bytes and that the buffer never
holds more than 4096 bytes; but a single `extend` of 4097 bytes into
an empty buffer succeeds and leaves 4097 bytes in the buffer. -/
theorem c6_counterexample :
    extend [] (List.replicate 4097 0) = .ok (List.replicate 4097 0) ∧
    (List.replicate 4097 (0 : Byte)).length > 4096 := by
  constructor
  · rw [extend, if_pos (by simp)]
    rw [List.nil_append]
  · rw [List.length_replicate]
    omega

/-- Claim C6, amended.  `extend` raises `OverflowError` exactly when
the buffer already holds at least 4096 bytes when the call is made
(the size of the incoming chunk is not considered), and otherwise
appends the whole chunk; consequently, after any sequence of
successful `extend` calls on an initially empty buffer the buffer
holds at most 4095 bytes plus the length of the largest chunk — which
can exceed 4096. -/
theorem c6_extend_overflow_iff :
    (∀ buf other, extend buf other = .error .overflowError ↔
      4096 ≤ buf.length) ∧
    (∀ buf other, buf.length < 4096 → extend buf other = .ok (buf ++ other)) ∧
    (∀ chunks M res, (∀ c ∈ chunks, c.length ≤ M) →
      extend_seq chunks = .ok res → res.length ≤ 4095 + M) := by
  refine ⟨fun buf other => ?_, fun buf other h => ?_, fun chunks M res hc h => ?_⟩
  · unfold extend
    by_cases hlt : buf.length < 4096
    · rw [if_pos hlt]
      constructor
      · intro hx
        cases hx
      · intro hx
        omega
    · rw [if_neg hlt]
      constructor
      · intro _
        omega
      · intro _
        rfl
  · rw [extend, if_pos h]
  · exact extend_seq_from_length_le chunks [] res M (by simp) hc h

/-- Witness for `c6_extend_overflow_iff` at concrete inputs. -/
theorem c6_extend_overflow_iff_witness :
    extend (List.replicate 4096 0) [1] = .error .overflowError ∧
    extend [0] [1] = .ok [0, 1] ∧
    ([2, 3] : List Byte).length ≤ 4095 + 2 :=
  ⟨(c6_extend_overflow_iff.1 _ _).mpr (by rw [List.length_replicate]),
   c6_extend_overflow_iff.2.1 [0] [1] (by norm_num),
   c6_extend_overflow_iff.2.2 [[2, 3]] 2 [2, 3] (by decide) (by decide)⟩

/-- Claim C2 counterexample.  The claim says the frame-end `DLE ETX`
boundary used to extract a frame honours DLE-stuffing, so a body pair
`DLE DLE` followed by `0x03` is never taken as the terminator and the
extracted slice runs to the true `DLE ETX` plus two CRC bytes.  On
`stuffedEtxBuffer` the stuffed pair sits at indices 8..9 followed by
`0x03` at 10, the true `DLE ETX` is at 11 and the claimed slice is the
first 15 bytes; but the code's plain `bytes.find` locates `DLE ETX`
at index 9 (inside the stuffed pair) and the extracted frame is the
first 13 bytes. -/
theorem c2_counterexample :
    pop_left_frames 30 stuffedEtxBuffer =
      some ([stuffedEtxBuffer.take 13], .error .typeError) ∧
    stuffedEtxBuffer.take 13 ≠ stuffedEtxBuffer.take 15 ∧
    (stuffedEtxBuffer.drop 8).take 3 = [DLE, DLE, ETX] ∧
    (stuffedEtxBuffer.drop 11).take 2 = dle_etx_bytes := by
  decide

/-- Claim C2, amended.  DLE-stuffing is honoured only by the interior
cleanup scan (`_find_escaped`); the frame extraction itself is not
stuffing-aware: `_get_stx_etx_frame_position` takes the first raw
occurrence of `DLE ETX` in the buffer — even one straddling a stuffed
`DLE DLE` pair — as the terminator, and the extracted slice ends at
that occurrence plus the two CRC bytes, which on a body containing
`DLE DLE 03` falls short of the true `DLE ETX`. -/
theorem c2_extraction_uses_plain_find :
    (∀ buf s e, get_stx_etx_frame_position buf = some (s, e) →
      (bytesFind buf dle_stx_bytes 0).toNat = s ∧
      (bytesFind buf dle_etx_bytes 0).toNat + 4 = e) ∧
    bytesFind stuffedEtxBuffer dle_etx_bytes 0 = 9 ∧
    pop_left_frames 30 stuffedEtxBuffer =
      some ([stuffedEtxBuffer.take 13], .error .typeError) := by
  refine ⟨?_, by decide, by decide⟩
  intro buf s e h
  unfold get_stx_etx_frame_position at h
  dsimp only at h
  split at h
  · cases h
    exact ⟨rfl, rfl⟩
  · cases h

/-- Witness for `c2_extraction_uses_plain_find` at the concrete
buffer. -/
theorem c2_extraction_uses_plain_find_witness :
    (bytesFind stuffedEtxBuffer dle_stx_bytes 0).toNat = 0 ∧
    (bytesFind stuffedEtxBuffer dle_etx_bytes 0).toNat + 4 = 13 :=
  c2_extraction_uses_plain_find.1 stuffedEtxBuffer 0 13 (by decide)

/-- Claim C3 counterexample.  The claim says frames are emitted in
arrival order, so a complete short reply starting before a complete
data frame is yielded first.  On `ackThenFrameBuffer` the `DLE ACK`
sits at index 0 and the data frame starts at index 2, yet
`pop_left_frames` yields the data frame first and the `DLE ACK`
second. -/
theorem c3_counterexample :
    pop_left_frames 20 ackThenFrameBuffer =
      some ([ackThenFrameBuffer.drop 2, [DLE, ACK]], .ok []) ∧
    bytesFind ackThenFrameBuffer dle_ack_bytes 0 = 0 ∧
    bytesFind ackThenFrameBuffer dle_stx_bytes 0 = 2 ∧
    ackThenFrameBuffer.drop 2 ≠ [DLE, ACK] := by
  decide

/-- Claim C3, amended.  `pop_left_frames` prioritises complete
`DLE STX … DLE ETX` data frames over short replies regardless of
position: `_get_full_frame_position` returns the data-frame position
whenever one is available, so a buffer holding a short reply at an
earlier index than a complete data frame yields the data frame first
and the short reply afterwards. -/
theorem c3_data_frame_priority :
    (∀ buf p, get_stx_etx_frame_position buf = some p →
      get_full_frame_position buf = some p) ∧
    pop_left_frames 20 ackThenFrameBuffer =
      some ([ackThenFrameBuffer.drop 2, [DLE, ACK]], .ok []) :=
  ⟨fun buf p h => by unfold get_full_frame_position; rw [h], by decide⟩

/-- Witness for `c3_data_frame_priority` at the concrete buffer. -/
theorem c3_data_frame_priority_witness :
    get_full_frame_position ackThenFrameBuffer = some (2, 14) :=
  c3_data_frame_priority.1 ackThenFrameBuffer (2, 14) (by decide)

/-- Claim C7 counterexample.  The claim says that whenever the address
fields `table`, `start`, `start_sub` are all ≤ 0xFE no
`NotImplementedError` is raised; but `Command0FAA.init_with_params`
with `file_type = TIMER` and all three fields 0 raises
`NotImplementedError` (the write serialisation supports only
INTEGER/OUT_LOGIC/BIT/CONTROL/FLOAT). -/
theorem c7_counterexample :
    command0FAA_init 0 .TIMER 0 [] 0 = .error (.notImplemented "") := by
  decide

/-- Claim C7, amended.  For `Command0FA2`, `Command0FAA`,
`Command0FAB`, `Command0F04` and `Command0603`, an address field above
0xFE always makes initialisation raise `NotImplementedError` — for a
`Command0FAA` FLOAT write under the proviso that every data entry is
an octet, since the serialisation `bytes(data_to_write)` runs first
and raises `ValueError` on an out-of-range entry (last conjunct).
When all three fields are ≤ 0xFE, the read-form commands (`0FA2`,
`0F04`, `0603`) raise nothing and assemble the payload
`[bytes_to_read, table, file_type, start, start_sub]`, and the write
commands (`0FAA`, `0FAB`) raise nothing provided the file type is one
their encoder supports (with the same octet proviso for `0FAA` FLOAT
writes). -/
theorem c7_address_field_checks :
    (∀ btr t ft s ss, t > 0xfe ∨ s > 0xfe ∨ ss > 0xfe →
      ∃ m, command0FA2_init btr t ft s ss = .error (.notImplemented m)) ∧
    (∀ btr t ft s ss, t > 0xfe ∨ s > 0xfe ∨ ss > 0xfe →
      ∃ m, command0F04_init btr t ft s ss = .error (.notImplemented m)) ∧
    (∀ btr t ft s ss, t > 0xfe ∨ s > 0xfe ∨ ss > 0xfe →
      ∃ m, command0603_init btr t ft s ss = .error (.notImplemented m)) ∧
    (∀ t ft s d ss, t > 0xfe ∨ s > 0xfe ∨ ss > 0xfe →
      (ft = .FLOAT → ∀ b ∈ d, b < 256) →
      ∃ m, command0FAA_init t ft s d ss = .error (.notImplemented m)) ∧
    (∀ t ft s bm d ss, t > 0xfe ∨ s > 0xfe ∨ ss > 0xfe →
      ∃ m, command0FAB_init t ft s bm d ss = .error (.notImplemented m)) ∧
    (∀ btr t ft s ss, t ≤ 0xfe → s ≤ 0xfe → ss ≤ 0xfe →
      command0FA2_init btr t ft s ss =
        .ok ⟨0x0f, 0xa2, [btr, t, ft.value, s, ss]⟩) ∧
    (∀ btr t ft s ss, t ≤ 0xfe → s ≤ 0xfe → ss ≤ 0xfe →
      command0F04_init btr t ft s ss =
        .ok ⟨0x0f, 0x04, [btr, t, ft.value, s, ss]⟩) ∧
    (∀ btr t ft s ss, t ≤ 0xfe → s ≤ 0xfe → ss ≤ 0xfe →
      command0603_init btr t ft s ss =
        .ok ⟨0x06, 0x03, [btr, t, ft.value, s, ss]⟩) ∧
    (∀ t ft s d ss, t ≤ 0xfe → s ≤ 0xfe → ss ≤ 0xfe →
      (ft = .INTEGER ∨ ft = .OUT_LOGIC ∨ ft = .BIT ∨ ft = .CONTROL ∨
        ft = .FLOAT) →
      (ft = .FLOAT → ∀ b ∈ d, b < 256) →
      ∃ c, command0FAA_init t ft s d ss = .ok c) ∧
    (∀ t ft s bm d ss, t ≤ 0xfe → s ≤ 0xfe → ss ≤ 0xfe →
      (ft = .INTEGER ∨ ft = .BIT ∨ ft = .FLOAT) →
      ∃ c, command0FAB_init t ft s bm d ss = .ok c) ∧
    (∀ t s d ss b, b ∈ d → 256 ≤ b →
      command0FAA_init t .FLOAT s d ss = .error .valueError) := by
  refine ⟨?_, ?_, ?_, ?_, ?_, ?_, ?_, ?_, ?_, ?_, ?_⟩
  · intro btr t ft s ss h
    exact ⟨_, by unfold command0FA2_init; rw [if_pos (by tauto)]⟩
  · intro btr t ft s ss h
    exact ⟨_, by unfold command0F04_init; rw [if_pos (by tauto)]⟩
  · intro btr t ft s ss h
    exact ⟨_, by unfold command0603_init; rw [if_pos (by tauto)]⟩
  · intro t ft s d ss h hfl
    unfold command0FAA_init
    cases hser : command0FAA_serialise ft d with
    | error e =>
      have : e = .notImplemented "" := by
        unfold command0FAA_serialise at hser
        by_cases h1 : ft = .INTEGER ∨ ft = .OUT_LOGIC ∨ ft = .BIT ∨
            ft = .CONTROL
        · rw [if_pos h1] at hser
          cases hser
        · rw [if_neg h1] at hser
          by_cases h2 : ft = .FLOAT
          · rw [if_pos h2] at hser
            have hall : d.all (fun b => decide (b < 256)) = true := by
              rw [List.all_eq_true]
              intro b hb
              exact decide_eq_true (hfl h2 b hb)
            rw [if_pos hall] at hser
            cases hser
          · rw [if_neg h2] at hser
            cases hser
            rfl
      exact ⟨"", by rw [this]⟩
    | ok bw => exact ⟨_, by dsimp only; rw [if_pos (by tauto)]⟩
  · intro t ft s bm d ss h
    unfold command0FAB_init
    cases hser : command0FAB_serialise ft d with
    | error e =>
      have : e = .notImplemented "" := by
        unfold command0FAB_serialise at hser
        by_cases h1 : ft = .INTEGER ∨ ft = .BIT ∨ ft = .FLOAT
        · rw [if_pos h1] at hser
          cases hser
        · rw [if_neg h1] at hser
          cases hser
          rfl
      exact ⟨"", by rw [this]⟩
    | ok bw => exact ⟨_, by dsimp only; rw [if_pos (by tauto)]⟩
  · intro btr t ft s ss h1 h2 h3
    unfold command0FA2_init
    rw [if_neg (by omega)]
  · intro btr t ft s ss h1 h2 h3
    unfold command0F04_init
    rw [if_neg (by omega)]
  · intro btr t ft s ss h1 h2 h3
    unfold command0603_init
    rw [if_neg (by omega)]
  · intro t ft s d ss h1 h2 h3 hft hfl
    unfold command0FAA_init
    have hser : ∃ bw, command0FAA_serialise ft d = .ok bw := by
      unfold command0FAA_serialise
      by_cases h4 : ft = .INTEGER ∨ ft = .OUT_LOGIC ∨ ft = .BIT ∨
          ft = .CONTROL
      · rw [if_pos h4]
        exact ⟨_, rfl⟩
      · have h5 : ft = .FLOAT := by tauto
        have hall : d.all (fun b => decide (b < 256)) = true := by
          rw [List.all_eq_true]
          intro b hb
          exact decide_eq_true (hfl h5 b hb)
        rw [if_neg h4, if_pos h5, if_pos hall]
        exact ⟨_, rfl⟩
    obtain ⟨bw, hbw⟩ := hser
    rw [hbw]
    exact ⟨_, by dsimp only; rw [if_neg (by omega)]⟩
  · intro t ft s bm d ss h1 h2 h3 hft
    unfold command0FAB_init
    have hser : ∃ bw, command0FAB_serialise ft d = .ok bw := by
      unfold command0FAB_serialise
      rw [if_pos hft]
      exact ⟨_, rfl⟩
    obtain ⟨bw, hbw⟩ := hser
    rw [hbw]
    exact ⟨_, by dsimp only; rw [if_neg (by omega)]⟩
  · intro t s d ss b hb hge
    have hser : command0FAA_serialise .FLOAT d = .error .valueError := by
      unfold command0FAA_serialise
      rw [if_neg (by decide), if_pos rfl, if_neg ?_]
      intro hall
      have := of_decide_eq_true (List.all_eq_true.mp hall b hb)
      omega
    unfold command0FAA_init
    rw [hser]

/-- Processing one frame moves `last_response` exactly as the claim's
step function says: reset on a received short ACK/NAK, otherwise the
most recent ACK/NAK pair just sent, otherwise unchanged. -/
theorem process_frame_claim_step (st st1 : EngineState) (m : Msg)
    (out : List Output) (hm : m ≠ .timeout)
    (h : process_frame_buffer st m = .ok (st1, out)) :
    st1.last_response = claim_step st.last_response m out := by
  cases m with
  | ack =>
    unfold process_frame_buffer at h
    cases h
    simp [claim_step]
  | nak =>
    unfold process_frame_buffer at h
    cases h
    simp [claim_step]
  | timeout => exact absurd rfl hm
  | enq =>
    unfold process_frame_buffer at h
    cases h
    by_cases hlr : st.last_response = [DLE, ACK] ∨ st.last_response = [DLE, NAK]
    · simp [claim_step, sent_ack_nak, List.filterMap, hlr]
    · simp [claim_step, sent_ack_nak, List.filterMap, hlr]
  | data4f v tns d =>
    unfold process_frame_buffer at h
    dsimp only at h
    cases v with
    | false =>
      rw [if_neg (by simp)] at h
      cases h
      simp [claim_step, sent_ack_nak, List.filterMap]
    | true =>
      rw [if_pos rfl] at h
      cases hcs : st.command_sent with
      | none => rw [hcs] at h; cases h
      | some ct =>
        rw [hcs] at h
        dsimp only at h
        by_cases he : ct = tns
        · rw [if_pos he] at h
          cases h
          simp [claim_step, sent_ack_nak, List.filterMap]
        · rw [if_neg he] at h
          cases h
          simp [claim_step, sent_ack_nak, List.filterMap]
  | unknownMsg v tns =>
    unfold process_frame_buffer at h
    dsimp only at h
    cases v with
    | false =>
      rw [if_neg (by simp)] at h
      cases h
      simp [claim_step, sent_ack_nak, List.filterMap]
    | true =>
      rw [if_pos rfl] at h
      cases hcs : st.command_sent with
      | none => rw [hcs] at h; cases h
      | some ct =>
        rw [hcs] at h
        dsimp only at h
        by_cases he : ct = tns
        · rw [if_pos he] at h
          cases h
          simp [claim_step, sent_ack_nak, List.filterMap]
        · rw [if_neg he] at h
          cases h
          simp [claim_step, sent_ack_nak, List.filterMap]

/-- Folding the claim's step function over a processed trace tracks
`last_response` exactly. -/
theorem run_frames_chunks_last_response :
    ∀ (msgs : List Msg) (st st2 : EngineState) (oss : List (List Output)),
      Msg.timeout ∉ msgs →
      run_frames_chunks st msgs = .ok (st2, oss) →
      st2.last_response = claim_last_response st.last_response (msgs.zip oss) := by
  intro msgs
  induction msgs with
  | nil =>
    intro st st2 oss _ h
    unfold run_frames_chunks at h
    cases h
    rfl
  | cons m rest ih =>
    intro st st2 oss hnt h
    unfold run_frames_chunks at h
    cases hp : process_frame_buffer st m with
    | error e => rw [hp] at h; cases h
    | ok pr =>
      rw [hp] at h
      obtain ⟨st1, out⟩ := pr
      dsimp only at h
      cases hr : run_frames_chunks st1 rest with
      | error e => rw [hr] at h; cases h
      | ok pr2 =>
        rw [hr] at h
        obtain ⟨st2x, oss2⟩ := pr2
        dsimp only at h
        cases h
        rw [List.zip_cons_cons]
        unfold claim_last_response
        rw [← process_frame_claim_step st st1 m out
          (fun hm => hnt (by simp [hm])) hp]
        exact ih st1 _ _ (fun hx => hnt (by simp [hx])) hr

/-- For a byte value, masking with 0xff is the identity, and adding a
left-shifted high part equals bitwise or. -/
theorem land_ff_add_shift (lo hi : Nat) (h : lo < 256) :
    (lo &&& 0xff) + (hi <<< 8) = lo ||| (hi <<< 8) := by
  have h1 : lo &&& 0xff = lo := by
    have h2 := Nat.and_pow_two_sub_one_eq_mod lo 8
    norm_num at h2
    rw [h2, Nat.mod_eq_of_lt h]
  rw [h1, Nat.shiftLeft_eq, Nat.lor_comm, Nat.add_comm, Nat.mul_comm]
  exact Nat.mul_add_lt_is_or (by norm_num [h] : lo < 2 ^ 8) hi

/-- `__pop_integer_data` on an even number of bytes: succeeds and
produces one word `(data[2k] & 0xff) + (data[2k+1] << 8)` per byte
pair. -/
theorem pop_integer_data_spec :
    ∀ data : List Byte, data.length % 2 = 0 →
      ∃ ws, pop_integer_data data = .ok ws ∧
        ws.length = data.length / 2 ∧
        ∀ k, k < ws.length →
          ws.getD k 0 = ((data.getD (2 * k) 0) &&& 0xff) +
            ((data.getD (2 * k + 1) 0) <<< 8) := by
  intro data
  induction data using pop_integer_data.induct with
  | case1 =>
    intro _
    exact ⟨[], rfl, rfl, fun k hk => by cases hk⟩
  | case2 a =>
    intro h2
    simp at h2
  | case3 lo hi rest e herr ih =>
    intro h2
    have hr : rest.length % 2 = 0 := by
      simp only [List.length_cons] at h2
      omega
    obtain ⟨ws, hws, _, _⟩ := ih hr
    rw [hws] at herr
    cases herr
  | case4 lo hi rest ws0 hok ih =>
    intro h2
    have hr : rest.length % 2 = 0 := by
      simp only [List.length_cons] at h2
      omega
    obtain ⟨ws, hws, hlen, hget⟩ := ih hr
    refine ⟨((lo &&& 0xff) + (hi <<< 8)) :: ws, ?_, ?_, ?_⟩
    · simp only [pop_integer_data, hws]
    · simp only [List.length_cons, hlen]
      omega
    · intro k hk
      cases k with
      | zero => simp
      | succ k =>
        have e1 : 2 * (k + 1) = 2 * k + 1 + 1 := by ring
        rw [e1]
        simp only [List.getD_cons_succ]
        exact hget k (by simpa using hk)

/-- Claim C8.  `Reply4f.get_data` with file type INTEGER raises
`ArithmeticError` iff the reply's data byte count is odd; on an
even-length byte list of octets it returns the word list whose `k`-th
element is `data[2k] | (data[2k+1] << 8)`. -/
theorem c8_get_data_integer :
    ∀ data : List Byte,
      (get_data .INTEGER data = .error .arithmeticError ↔
        data.length % 2 = 1) ∧
      ((∀ b ∈ data, b < 256) → data.length % 2 = 0 →
        ∃ ws, get_data .INTEGER data = .ok (.ints ws) ∧
          ws.length = data.length / 2 ∧
          ∀ k, k < ws.length →
            ws.getD k 0 = data.getD (2 * k) 0 |||
              (data.getD (2 * k + 1) 0 <<< 8)) := by
  intro data
  constructor
  · constructor
    · intro h
      by_contra hodd
      have h0 : data.length % 2 = 0 := by omega
      obtain ⟨ws, hws, _, _⟩ := pop_integer_data_spec data h0
      unfold get_data at h
      rw [if_neg (by omega), hws] at h
      cases h
    · intro h
      unfold get_data
      rw [if_pos (by omega)]
  · intro hb h0
    obtain ⟨ws, hws, hlen, hget⟩ := pop_integer_data_spec data h0
    refine ⟨ws, ?_, hlen, ?_⟩
    · unfold get_data
      rw [if_neg (by omega), hws]
    · intro k hk
      have hlt : 2 * k < data.length := by omega
      rw [hget k hk]
      refine land_ff_add_shift _ _ ?_
      rw [List.getD_eq_getElem _ _ hlt]
      exact hb _ (List.getElem_mem hlt)

/-- Witness for `c8_get_data_integer`: an odd reply (3 bytes) raises
`ArithmeticError`, and the 4-byte reply `0A 00 34 12` decodes to the
words `[0x000A, 0x1234]`. -/
theorem c8_get_data_integer_witness :
    get_data .INTEGER [10, 0, 7] = .error .arithmeticError ∧
    (∃ ws, get_data .INTEGER [10, 0, 52, 18] = .ok (.ints ws) ∧
      ws.length = ([10, 0, 52, 18] : List Byte).length / 2 ∧
      ∀ k, k < ws.length →
        ws.getD k 0 = ([10, 0, 52, 18] : List Byte).getD (2 * k) 0 |||
          (([10, 0, 52, 18] : List Byte).getD (2 * k + 1) 0 <<< 8)) :=
  ⟨(c8_get_data_integer [10, 0, 7]).1.mpr (by decide),
   (c8_get_data_integer [10, 0, 52, 18]).2 (by decide) (by decide)⟩

/-- Claim C4 counterexample.  The claim says that after an ACK with no
data reply within `timeout_read_msg`, `send_command` sends `DLE NAK`
and returns to the outer loop for up to two more full attempts,
raising `SendReceiveError` only after those attempts are exhausted.
Feeding the reply script ACK-then-timeout, the engine emits the
command once, sends `DLE NAK`, and raises immediately: the output
trace holds a single `frame` element, not three. -/
theorem c4_counterexample :
    send_command 0 5 [.ack, .timeout] =
      (⟨0, 5, 0⟩, [.frame 5, .raw [DLE, NAK]], .error .sendReceiveError) := by
  decide

/-- Claim C4, amended.  After an ACK, a `timeout_read_msg` expiry makes
`send_command` send `DLE NAK` and raise `SendReceiveError` at once —
`retry_send` is set only by a NAK reply, so the timeout path never
re-enters the outer loop.  A NAK reply, by contrast, does re-enter it
with a freshly allocated transaction number (second conjunct: the
command is emitted a second time under the new TNS). -/
theorem c4_timeout_after_ack_raises_immediately :
    (∀ lt ct, send_command lt ct [.ack, .timeout] =
      (⟨lt, ct, 0⟩, [.frame ct, .raw [DLE, NAK]], .error .sendReceiveError)) ∧
    (∀ lt ct, send_command lt ct [.nak] =
      (⟨get_new_tns lt, get_new_tns lt, 0⟩,
       [.frame ct, .raw [DLE, ENQ], .frame (get_new_tns lt),
        .raw [DLE, ENQ]],
       .error .sendReceiveError)) :=
  ⟨fun _ _ => rfl, fun _ _ => rfl⟩

/-- Claim C5 counterexample.  The claim says a CRC-valid data frame
whose TNS differs from the outstanding command's draws a `DLE ACK`, is
not pushed, and increments `messages_dropped`.  Processing such a
frame (reply TNS 2 against outstanding TNS 1) from the initial state
sends the ACK and leaves the sink empty, but `messages_dropped` stays
0 — the receiver path never touches that counter. -/
theorem c5_counterexample :
    process_frame_buffer (initState (some 1)) (.data4f true 2 []) =
      .ok (⟨[DLE, ACK], [], 0, some 1⟩, [.raw [DLE, ACK]]) := by
  decide

/-- Claim C5, amended.  On a CRC-valid data frame whose TNS differs
from the outstanding command's, the receiver sends `DLE ACK` back and
does not push the frame, and the state changes in no other way — in
particular `messages_dropped` is unchanged (that counter is
incremented only inside `send_command`, on the caller side). -/
theorem c5_mismatch_acked_not_pushed_not_counted :
    ∀ (st : EngineState) (ct tns : Nat) (d : List Byte),
      st.command_sent = some ct → ct ≠ tns →
      process_frame_buffer st (.data4f true tns d) =
        .ok ({ st with last_response := [DLE, ACK] }, [.raw [DLE, ACK]]) := by
  intro st ct tns d h hne
  unfold process_frame_buffer
  rw [h]
  dsimp only
  rw [if_neg hne, if_pos rfl]

/-- Witness for `c5_mismatch_acked_not_pushed_not_counted` at a
concrete state and frame. -/
theorem c5_mismatch_witness :
    process_frame_buffer (initState (some 1)) (.data4f true 2 [7]) =
      .ok ({ initState (some 1) with last_response := [DLE, ACK] },
        [.raw [DLE, ACK]]) :=
  c5_mismatch_acked_not_pushed_not_counted (initState (some 1)) 1 2 [7] rfl
    (by decide)

/-- Witness for `c7_address_field_checks` at concrete inputs,
exercising the address-field error and success paths, the FLOAT write
with octet data, and the `ValueError` from an out-of-range FLOAT data
entry. -/
theorem c7_address_field_checks_witness :
    (∃ m, command0FA2_init 2 0x100 .INTEGER 0 0 = .error (.notImplemented m)) ∧
    command0FA2_init 2 7 .INTEGER 0 0 = .ok ⟨0x0f, 0xa2, [2, 7, 0x89, 0, 0]⟩ ∧
    (∃ m, command0FAA_init 3 .INTEGER 0x100 [1] 0 =
      .error (.notImplemented m)) ∧
    (∃ c, command0FAA_init 3 .INTEGER 0 [1] 0 = .ok c) ∧
    (∃ c, command0FAA_init 8 .FLOAT 0 [1, 2, 3, 4] 0 = .ok c) ∧
    (∃ m, command0FAB_init 3 .BIT 0 1 [1] 0x100 = .error (.notImplemented m)) ∧
    (∃ c, command0FAB_init 3 .BIT 0 1 [1] 0 = .ok c) ∧
    command0FAA_init 8 .FLOAT 0 [300] 0 = .error .valueError :=
  ⟨c7_address_field_checks.1 2 0x100 .INTEGER 0 0 (by omega),
   c7_address_field_checks.2.2.2.2.2.1 2 7 .INTEGER 0 0 (by omega) (by omega)
     (by omega),
   c7_address_field_checks.2.2.2.1 3 .INTEGER 0x100 [1] 0 (by omega)
     (fun h => nomatch h),
   c7_address_field_checks.2.2.2.2.2.2.2.2.1 3 .INTEGER 0 [1] 0 (by omega)
     (by omega) (by omega) (by tauto) (fun h => nomatch h),
   c7_address_field_checks.2.2.2.2.2.2.2.2.1 8 .FLOAT 0 [1, 2, 3, 4] 0
     (by omega) (by omega) (by omega) (by tauto) (by intro _ b hb; fin_cases hb <;> omega),
   c7_address_field_checks.2.2.2.2.1 3 .BIT 0 1 [1] 0x100 (by omega),
   c7_address_field_checks.2.2.2.2.2.2.2.2.2.1 3 .BIT 0 1 [1] 0 (by omega)
     (by omega) (by omega) (by tauto),
   c7_address_field_checks.2.2.2.2.2.2.2.2.2.2 8 0 [300] 0 300 (by simp)
     (by omega)⟩

/-- Claim C9.  The engine initialises `last_response` to `DLE NAK`,
keeps it equal to the byte pair of the most recent `DLE ACK`/`DLE NAK`
it sent, resets it to `DLE NAK` whenever a short ACK/NAK reply is
received, and on receiving `DLE ENQ` retransmits exactly those two
bytes (leaving them unchanged).  Stated over every trace of parsed
inbound frames (the synthetic `Timeout` never reaches the receiver
path) via the observable history pairing each message with the bytes
its processing sent. -/
theorem c9_last_response_invariant :
    (∀ (cs : Option Nat) (msgs : List Msg) (st2 : EngineState)
        (oss : List (List Output)),
      Msg.timeout ∉ msgs →
      run_frames_chunks (initState cs) msgs = .ok (st2, oss) →
      st2.last_response = claim_last_response [DLE, NAK] (msgs.zip oss)) ∧
    (∀ st : EngineState,
      process_frame_buffer st .enq = .ok (st, [.raw st.last_response])) :=
  ⟨fun cs msgs st2 oss hnt h =>
    run_frames_chunks_last_response msgs (initState cs) st2 oss hnt h,
   fun _ => rfl⟩

/-- Witness for `c9_last_response_invariant` on a concrete trace: a
valid matching data frame (the engine sends `DLE ACK`), then a short
ACK reply (reset to `DLE NAK`), then an ENQ (retransmits
`DLE NAK`). -/
theorem c9_last_response_invariant_witness :
    (⟨[DLE, NAK], [Msg.data4f true 1 [], Msg.ack], 0, some 1⟩ :
        EngineState).last_response =
      claim_last_response [DLE, NAK]
        ([Msg.data4f true 1 [], Msg.ack, Msg.enq].zip
          [[Output.raw [DLE, ACK]], [], [Output.raw [DLE, NAK]]]) ∧
    process_frame_buffer (initState (some 1)) .enq =
      .ok (initState (some 1), [.raw [DLE, NAK]]) :=
  ⟨c9_last_response_invariant.1 (some 1)
      [Msg.data4f true 1 [], Msg.ack, Msg.enq] _ _ (by decide) (by decide),
   c9_last_response_invariant.2 (initState (some 1))⟩

/-- Claim C10 counterexample.  The claim says every read helper
returns the list of decoded values when the transaction succeeds.  On
a successful integer read (reply TNS matches, one decoded word `10`)
`read_integer` returns the Python boolean `True` — the value of
`read_ok` — not the list `[10]` (which is only stored in the `data`
field). -/
theorem c10_counterexample :
    read_integer 4 7 0 1 (.ok ⟨5, [10, 0]⟩) =
      .ok (.pybool true, true, .ints [10]) ∧
    PyVal.pybool true ≠ PyVal.pylist (.ints [10]) := by
  decide

/-- Claim C10, amended.  Every read helper returns the boolean
`read_ok`, not the decoded list; the decoded values are exposed
through the `data` field, which equals the decoded (and, where a bit
or category selector applies, projected) value list exactly when
`read_ok` is true — i.e. when the decoded list is non-empty and the
reply's TNS matches the command's — and equals `[]` otherwise. -/
theorem c10_read_helpers_return_read_ok :
    (∀ lt ft s ti (reply : ReplyData) ret rok dat,
      read_integer lt ft s ti (.ok reply) = .ok (ret, rok, dat) →
      ret = .pybool rok ∧ (rok = false → dat = .ints []) ∧
      (rok = true → ∃ vs, get_data .INTEGER reply.rdata = .ok vs ∧
        dat = vs ∧ 0 < vs.length ∧ get_new_tns lt = reply.tns)) ∧
    (∀ lt ft s ti (reply : ReplyData) ret rok dat,
      read_register lt ft s ti (.ok reply) = .ok (ret, rok, dat) →
      ret = .pybool rok ∧ (rok = false → dat = .ints []) ∧
      (rok = true → ∃ vs, get_data .INTEGER reply.rdata = .ok vs ∧
        dat = vs ∧ 0 < vs.length ∧ get_new_tns lt = reply.tns)) ∧
    (∀ lt ft s tf (reply : ReplyData) ret rok dat,
      read_float lt ft s tf (.ok reply) = .ok (ret, rok, dat) →
      ret = .pybool rok ∧ (rok = false → dat = .ints []) ∧
      (rok = true → ∃ vs, get_data .FLOAT reply.rdata = .ok vs ∧
        dat = vs ∧ 0 < vs.length ∧ get_new_tns lt = reply.tns)) ∧
    (∀ lt ft s bit ti (reply : ReplyData) ret rok dat,
      read_output lt ft s bit ti (.ok reply) = .ok (ret, rok, dat) →
      ret = .pybool rok ∧ (rok = false → dat = .ints []) ∧
      (rok = true → ∃ raw vs, get_data .INTEGER reply.rdata = .ok raw ∧
        project_bits bit raw = .ok vs ∧ dat = vs ∧ 0 < vs.length ∧
        get_new_tns lt = reply.tns)) ∧
    (∀ lt ft s bit ti (reply : ReplyData) ret rok dat,
      read_input lt ft s bit ti (.ok reply) = .ok (ret, rok, dat) →
      ret = .pybool rok ∧ (rok = false → dat = .ints []) ∧
      (rok = true → ∃ raw vs, get_data .INTEGER reply.rdata = .ok raw ∧
        project_bits bit raw = .ok vs ∧ dat = vs ∧ 0 < vs.length ∧
        get_new_tns lt = reply.tns)) ∧
    (∀ lt ft s bit ti (reply : ReplyData) ret rok dat,
      read_binary lt ft s bit ti (.ok reply) = .ok (ret, rok, dat) →
      ret = .pybool rok ∧ (rok = false → dat = .ints []) ∧
      (rok = true → ∃ raw vs, get_data .INTEGER reply.rdata = .ok raw ∧
        project_bits bit raw = .ok vs ∧ dat = vs ∧ 0 < vs.length ∧
        get_new_tns lt = reply.tns)) ∧
    (∀ lt ft s cat ti (reply : ReplyData) ret rok dat,
      read_timer lt ft s cat ti (.ok reply) = .ok (ret, rok, dat) →
      ret = .pybool rok ∧ (rok = false → dat = .ints []) ∧
      (rok = true → ∃ raw vs, get_data .INTEGER reply.rdata = .ok raw ∧
        project_timer cat raw = .ok vs ∧ dat = vs ∧ 0 < vs.length ∧
        get_new_tns lt = reply.tns)) ∧
    (∀ lt ft s cat ti (reply : ReplyData) ret rok dat,
      read_counter lt ft s cat ti (.ok reply) = .ok (ret, rok, dat) →
      ret = .pybool rok ∧ (rok = false → dat = .ints []) ∧
      (rok = true → ∃ raw vs, get_data .INTEGER reply.rdata = .ok raw ∧
        project_counter cat raw = .ok vs ∧ dat = vs ∧ 0 < vs.length ∧
        get_new_tns lt = reply.tns)) := by
  refine ⟨?_, ?_, ?_, ?_, ?_, ?_, ?_, ?_⟩
  · intro lt ft s ti reply ret rok dat h
    unfold read_integer at h
    cases hc : command0FA2_init (ti * 2) ft .INTEGER s 0 with
    | error e => rw [hc] at h; cases h
    | ok c =>
      rw [hc] at h
      dsimp only at h
      cases hg : get_data .INTEGER reply.rdata with
      | error e => rw [hg] at h; cases h
      | ok vs =>
        rw [hg] at h
        dsimp only at h
        cases h
        refine ⟨rfl, fun hf => by simp [hf], fun ht => ?_⟩
        have hand := ht
        rw [Bool.and_eq_true] at hand
        obtain ⟨h1, h2⟩ := hand
        exact ⟨vs, rfl, by rw [if_pos ht], of_decide_eq_true h1,
          of_decide_eq_true h2⟩
  · intro lt ft s ti reply ret rok dat h
    unfold read_register at h
    cases hc : command0FA2_init (ti * 2) ft .CONTROL s 0 with
    | error e => rw [hc] at h; cases h
    | ok c =>
      rw [hc] at h
      dsimp only at h
      cases hg : get_data .INTEGER reply.rdata with
      | error e => rw [hg] at h; cases h
      | ok vs =>
        rw [hg] at h
        dsimp only at h
        cases h
        refine ⟨rfl, fun hf => by simp [hf], fun ht => ?_⟩
        have hand := ht
        rw [Bool.and_eq_true] at hand
        obtain ⟨h1, h2⟩ := hand
        exact ⟨vs, rfl, by rw [if_pos ht], of_decide_eq_true h1,
          of_decide_eq_true h2⟩
  · intro lt ft s tf reply ret rok dat h
    unfold read_float at h
    cases hc : command0FA2_init (tf * 4) ft .FLOAT s 0 with
    | error e => rw [hc] at h; cases h
    | ok c =>
      rw [hc] at h
      dsimp only at h
      cases hg : get_data .FLOAT reply.rdata with
      | error e => rw [hg] at h; cases h
      | ok vs =>
        rw [hg] at h
        dsimp only at h
        cases h
        refine ⟨rfl, fun hf => by simp [hf], fun ht => ?_⟩
        have hand := ht
        rw [Bool.and_eq_true] at hand
        obtain ⟨h1, h2⟩ := hand
        exact ⟨vs, rfl, by rw [if_pos ht], of_decide_eq_true h1,
          of_decide_eq_true h2⟩
  · intro lt ft s bit ti reply ret rok dat h
    unfold read_output at h
    cases hc : command0FA2_init (ti * 2) ft .OUT_LOGIC s 0 with
    | error e => rw [hc] at h; cases h
    | ok c =>
      rw [hc] at h
      dsimp only at h
      cases hg : get_data .INTEGER reply.rdata with
      | error e => rw [hg] at h; cases h
      | ok raw =>
        rw [hg] at h
        dsimp only at h
        cases hp : project_bits bit raw with
        | error e => rw [hp] at h; cases h
        | ok vs =>
          rw [hp] at h
          dsimp only at h
          cases h
          refine ⟨rfl, fun hf => by simp [hf], fun ht => ?_⟩
          have hand := ht
          rw [Bool.and_eq_true] at hand
          obtain ⟨h1, h2⟩ := hand
          exact ⟨raw, vs, rfl, hp, by rw [if_pos ht], of_decide_eq_true h1,
            of_decide_eq_true h2⟩
  · intro lt ft s bit ti reply ret rok dat h
    unfold read_input at h
    cases hc : command0FA2_init (ti * 2) ft .IN_LOGIC s 0 with
    | error e => rw [hc] at h; cases h
    | ok c =>
      rw [hc] at h
      dsimp only at h
      cases hg : get_data .INTEGER reply.rdata with
      | error e => rw [hg] at h; cases h
      | ok raw =>
        rw [hg] at h
        dsimp only at h
        cases hp : project_bits bit raw with
        | error e => rw [hp] at h; cases h
        | ok vs =>
          rw [hp] at h
          dsimp only at h
          cases h
          refine ⟨rfl, fun hf => by simp [hf], fun ht => ?_⟩
          have hand := ht
          rw [Bool.and_eq_true] at hand
          obtain ⟨h1, h2⟩ := hand
          exact ⟨raw, vs, rfl, hp, by rw [if_pos ht], of_decide_eq_true h1,
            of_decide_eq_true h2⟩
  · intro lt ft s bit ti reply ret rok dat h
    unfold read_binary at h
    cases hc : command0FA2_init (ti * 2) ft .BIT s 0 with
    | error e => rw [hc] at h; cases h
    | ok c =>
      rw [hc] at h
      dsimp only at h
      cases hg : get_data .INTEGER reply.rdata with
      | error e => rw [hg] at h; cases h
      | ok raw =>
        rw [hg] at h
        dsimp only at h
        cases hp : project_bits bit raw with
        | error e => rw [hp] at h; cases h
        | ok vs =>
          rw [hp] at h
          dsimp only at h
          cases h
          refine ⟨rfl, fun hf => by simp [hf], fun ht => ?_⟩
          have hand := ht
          rw [Bool.and_eq_true] at hand
          obtain ⟨h1, h2⟩ := hand
          exact ⟨raw, vs, rfl, hp, by rw [if_pos ht], of_decide_eq_true h1,
            of_decide_eq_true h2⟩
  · intro lt ft s cat ti reply ret rok dat h
    unfold read_timer at h
    dsimp only at h
    cases hc : command0FA2_init (ti * 2) ft .TIMER s (timer_sub cat) with
    | error e => rw [hc] at h; cases h
    | ok c =>
      rw [hc] at h
      dsimp only at h
      cases hg : get_data .INTEGER reply.rdata with
      | error e => rw [hg] at h; cases h
      | ok raw =>
        rw [hg] at h
        dsimp only at h
        cases hp : project_timer cat raw with
        | error e => rw [hp] at h; cases h
        | ok vs =>
          rw [hp] at h
          dsimp only at h
          cases h
          refine ⟨rfl, fun hf => by simp [hf], fun ht => ?_⟩
          have hand := ht
          rw [Bool.and_eq_true] at hand
          obtain ⟨h1, h2⟩ := hand
          exact ⟨raw, vs, rfl, hp, by rw [if_pos ht], of_decide_eq_true h1,
            of_decide_eq_true h2⟩
  · intro lt ft s cat ti reply ret rok dat h
    unfold read_counter at h
    dsimp only at h
    cases hc : command0FA2_init (ti * 2) ft .COUNTER s (counter_sub cat) with
    | error e => rw [hc] at h; cases h
    | ok c =>
      rw [hc] at h
      dsimp only at h
      cases hg : get_data .INTEGER reply.rdata with
      | error e => rw [hg] at h; cases h
      | ok raw =>
        rw [hg] at h
        dsimp only at h
        cases hp : project_counter cat raw with
        | error e => rw [hp] at h; cases h
        | ok vs =>
          rw [hp] at h
          dsimp only at h
          cases h
          refine ⟨rfl, fun hf => by simp [hf], fun ht => ?_⟩
          have hand := ht
          rw [Bool.and_eq_true] at hand
          obtain ⟨h1, h2⟩ := hand
          exact ⟨raw, vs, rfl, hp, by rw [if_pos ht], of_decide_eq_true h1,
            of_decide_eq_true h2⟩

/-- Witness for `c10_read_helpers_return_read_ok` on a successful
concrete integer read. -/
theorem c10_read_helpers_return_read_ok_witness :
    PyVal.pybool true = PyVal.pybool true ∧
    (true = false → DataVals.ints [10] = .ints []) ∧
    (true = true → ∃ vs, get_data .INTEGER ([10, 0] : List Byte) = .ok vs ∧
      DataVals.ints [10] = vs ∧ 0 < vs.length ∧ get_new_tns 4 = 5) :=
  c10_read_helpers_return_read_ok.1 4 7 0 1 ⟨5, [10, 0]⟩ (.pybool true) true
    (.ints [10]) (by decide)

end Df1
